import Mathlib

/-!
Shallow embedding of `SecureFHSSAlgorithm` (TEKNOFESTGUVENLIUYDU.py).

Real (Python float) arithmetic is modelled by exact rational arithmetic
over `ℚ`.  The coefficient schedule `k1_k2_list` is produced in the source
by Python's seeded Mersenne-Twister (`random.seed(sync_key)` followed by
five `random.randint(1000, 3000)` draws, sorted ascending); that generator
is runtime-library state outside the repository, so the schedule is carried
as an explicit field of the algorithm state, constrained where a claim
needs it (nonempty; in the program it always has exactly five entries,
each in [1000, 3000]).  Random draws made during the simulation
(`random.uniform(-a, a)`) are modelled as oracle inputs: a draw from
`uniform(-a, a)` is represented as `a * u` where `u` is the supplied
unit draw (constrained to [-1, 1] where a claim needs it).

The human-readable `formula` / `calculation` strings, console printing,
`time.sleep` pacing, timestamps and JSON export are presentation-only and
are not part of the embedding.
-/

namespace SecureFHSS

/-- `self.f0 = 2000` (MHz), S-band start. -/
def f0 : ℚ := 2000

/-- `self.t_hop = 2` (ms), fixed hop duration. -/
def t_hop : ℚ := 2

/-- `self.band_min = 2000` (MHz). -/
def band_min : ℚ := 2000

/-- `self.band_max = 4000` (MHz). -/
def band_max : ℚ := 4000

/-- `self.nominal_amplitude = 3.0` (V). -/
def nominal_amplitude : ℚ := 3

/-- `self.amplitude_tolerance = 0.3` (V). -/
def amplitude_tolerance : ℚ := 3 / 10

/-- `self.time_tolerance = 0.1` (ms). -/
def time_tolerance : ℚ := 1 / 10

/-- `self.k2_constant = 100`. -/
def k2_constant : ℕ := 100

/-- Mutable algorithm state: the coefficient schedule `self.k1_k2_list`
(fixed after construction), `self.current_k_index` and `self.hop_counter`. -/
structure AlgorithmState where
  k1_k2_list : List ℕ
  current_k_index : ℕ
  hop_counter : ℕ
deriving DecidableEq

/-- `get_k1_k2_values`: reads
`self.k1_k2_list[self.current_k_index % len(self.k1_k2_list)]` and returns
`(product // 100, 100)`.  The in-range list read is modelled with `getD`
(for a nonempty list the index is in range after the modulus, so the
default is never used). -/
def get_k1_k2_values (st : AlgorithmState) : ℕ × ℕ :=
  let k1_k2_product := st.k1_k2_list.getD (st.current_k_index % st.k1_k2_list.length) 0
  (k1_k2_product / k2_constant, k2_constant)

/-- The S-band correction of `calculate_frequency` (lines 109-112):
`if frequency < band_min: frequency = band_min
elif frequency > band_max: frequency = band_max`. -/
def clampBand (frequency : ℚ) : ℚ :=
  if frequency < band_min then band_min
  else if frequency > band_max then band_max
  else frequency

/-- Result dictionary of `calculate_frequency` (the `formula` and
`calculation` strings are presentation-only and omitted). -/
structure FrequencyResult where
  frequency : ℚ
  amplitude : ℚ
  time_ms : ℚ
  energy : ℚ
  k1 : ℕ
  k2 : ℕ
  k1_k2_product : ℕ
  k_index : ℕ
  is_valid : Bool
  attempts : ℕ
deriving DecidableEq

/-- Body of the `while attempts < max_attempts` loop of
`calculate_frequency`, with `fuel = max_attempts - attempts` as the
structural measure (`attempts` increases by one per iteration, so the
loop runs out exactly when the fuel does).  At exhaustion (`fuel = 0`)
the fallback dictionary is returned and `self.current_k_index` is
restored to `original_k_index`.  The `except ZeroDivisionError` branch
of the source is unreachable after the zero-time guard (the divisor is
positive), so the formula is modelled by total `ℚ` division. -/
def calcFreqGo (amplitude time_ms energy : ℚ) (original_k_index max_attempts : ℕ) :
    ℕ → ℕ → AlgorithmState → FrequencyResult × AlgorithmState
  | 0, _, st =>
    ({ frequency := f0, amplitude := amplitude, time_ms := time_ms, energy := energy,
       k1 := 10, k2 := 100, k1_k2_product := 1000, k_index := original_k_index,
       is_valid := false, attempts := max_attempts },
     { st with current_k_index := original_k_index })
  | fuel + 1, attempts, st =>
    let kk := get_k1_k2_values st
    let frequency := clampBand (f0 + (amplitude * kk.1 + energy * kk.2) / time_ms)
    if band_min ≤ frequency ∧ frequency ≤ band_max then
      ({ frequency := frequency, amplitude := amplitude, time_ms := time_ms,
         energy := energy, k1 := kk.1, k2 := kk.2, k1_k2_product := kk.1 * kk.2,
         k_index := st.current_k_index, is_valid := true, attempts := attempts + 1 },
       st)
    else
      calcFreqGo amplitude time_ms energy original_k_index max_attempts fuel (attempts + 1)
        { st with current_k_index := (st.current_k_index + 1) % st.k1_k2_list.length }

/-- `calculate_frequency(amplitude, time_ms, energy)`: zero-time guard,
then the retry loop over the coefficient schedule.  Returned together
with the post-call algorithm state. -/
def calculate_frequency (st : AlgorithmState) (amplitude time_ms energy : ℚ) :
    FrequencyResult × AlgorithmState :=
  let time_ms := if time_ms ≤ 0 then t_hop else time_ms
  calcFreqGo amplitude time_ms energy st.current_k_index st.k1_k2_list.length
    st.k1_k2_list.length 0 st

/-- `next_hop()`: increments `hop_counter`, advances `current_k_index`
modulo the schedule length.  (The informational dictionary it returns is
derived from the new state and not separately modelled.) -/
def next_hop (st : AlgorithmState) : AlgorithmState :=
  { st with
      hop_counter := st.hop_counter + 1,
      current_k_index := (st.current_k_index + 1) % st.k1_k2_list.length }

/-- Result dictionary of `validate_signal`. -/
structure ValidationResult where
  is_valid : Bool
  is_valid_amplitude : Bool
  is_valid_time : Bool
  amplitude : ℚ
  time_ms : ℚ
  min_allowed_amplitude : ℚ
  max_allowed_amplitude : ℚ
  min_allowed_time : ℚ
  max_allowed_time : ℚ
  tolerance_amplitude : ℚ
  tolerance_time : ℚ
deriving DecidableEq

/-- `validate_signal(amplitude, time_ms)`: inclusive tolerance windows
around the nominal amplitude and hop time; combined validity is the
conjunction.  Pure: reads only the constant attributes, touches no
algorithm state (hence takes none and returns none). -/
def validate_signal (amplitude time_ms : ℚ) : ValidationResult :=
  let min_amplitude := nominal_amplitude - amplitude_tolerance
  let max_amplitude := nominal_amplitude + amplitude_tolerance
  let min_time := t_hop - time_tolerance
  let max_time := t_hop + time_tolerance
  let is_valid_amplitude := decide (min_amplitude ≤ amplitude ∧ amplitude ≤ max_amplitude)
  let is_valid_time := decide (min_time ≤ time_ms ∧ time_ms ≤ max_time)
  { is_valid := is_valid_amplitude && is_valid_time,
    is_valid_amplitude := is_valid_amplitude,
    is_valid_time := is_valid_time,
    amplitude := amplitude,
    time_ms := time_ms,
    min_allowed_amplitude := min_amplitude,
    max_allowed_amplitude := max_amplitude,
    min_allowed_time := min_time,
    max_allowed_time := max_time,
    tolerance_amplitude := amplitude_tolerance,
    tolerance_time := time_tolerance }

/-- `generate_signal_parameters()` (sender side): amplitude is
`nominal + uniform(-0.15, 0.15)` — the uniform draw is supplied as the
oracle value `amp_draw` (i.e. `0.15 * u` for a unit draw `u`) — time is
the fixed hop duration, energy is `A² × t`.  Returns
(amplitude, time_ms, energy). -/
def generate_signal_parameters (amp_draw : ℚ) : ℚ × ℚ × ℚ :=
  let amplitude := nominal_amplitude + amp_draw
  let time_ms := t_hop
  let energy := amplitude ^ 2 * time_ms
  (amplitude, time_ms, energy)

/-- Loop body of `simulate_sender_operation`: per hop, generate
parameters, compute the frequency, advance the hop state (`sync_check`
is a pure read of `hop_counter` and does not affect the state).  Returns
the list of per-hop frequency results and the final algorithm state.
`amp_draws i` is the oracle value of the amplitude jitter drawn at
hop `i`. -/
def simulate_sender_go : AlgorithmState → (ℕ → ℚ) → ℕ → ℕ → List FrequencyResult × AlgorithmState
  | st, _, 0, _ => ([], st)
  | st, amp_draws, hops + 1, i =>
    let p := generate_signal_parameters (amp_draws i)
    let fr := calculate_frequency st p.1 p.2.1 p.2.2
    let rest := simulate_sender_go (next_hop fr.2) amp_draws hops (i + 1)
    (fr.1 :: rest.1, rest.2)

/-- `simulate_sender_operation(hop_count)` starting from a given
algorithm state. -/
def simulate_sender_operation (st : AlgorithmState) (hop_count : ℕ) (amp_draws : ℕ → ℚ) :
    List FrequencyResult × AlgorithmState :=
  simulate_sender_go st amp_draws hop_count 0

/-- One receiver hop record.  `freq_result = none` models the rejected
branch's stub dictionary `{'frequency': 0, 'is_valid': False}` (no
frequency is computed); `frequency_difference = ⊤` models
`float('inf')`. -/
structure ReceiverHopOutcome where
  received_amplitude : ℚ
  received_energy : ℚ
  received_time : ℚ
  validation : ValidationResult
  freq_result : Option FrequencyResult
  frequency_difference : WithTop ℚ
  is_match : Bool
deriving DecidableEq

/-- Loop body of `simulate_receiver_operation` for one sender record:
apply the multiplicative noise factor `1 + noise_draw` to amplitude and
energy and the additive `time_jitter` to time, measure
(`measure_signal_parameters` is an identity pass-through), validate, and
only if validation passes recompute the frequency with the same
algorithm and compare against the sender's frequency with the 40 MHz
match tolerance; in both branches advance the hop state. -/
def receiver_hop (st : AlgorithmState) (sender_data : FrequencyResult)
    (noise_draw time_jitter : ℚ) : ReceiverHopOutcome × AlgorithmState :=
  let noise_factor := 1 + noise_draw
  let received_amplitude := sender_data.amplitude * noise_factor
  let received_energy := sender_data.energy * noise_factor
  let received_time := sender_data.time_ms + time_jitter
  let validation := validate_signal received_amplitude received_time
  if validation.is_valid then
    let fr := calculate_frequency st received_amplitude received_time received_energy
    let freq_difference : ℚ := |fr.1.frequency - sender_data.frequency|
    ({ received_amplitude := received_amplitude, received_energy := received_energy,
       received_time := received_time, validation := validation,
       freq_result := some fr.1,
       frequency_difference := (freq_difference : WithTop ℚ),
       is_match := decide (freq_difference < 40) },
     next_hop fr.2)
  else
    ({ received_amplitude := received_amplitude, received_energy := received_energy,
       received_time := received_time, validation := validation,
       freq_result := none, frequency_difference := ⊤, is_match := false },
     next_hop st)

/-- Receiver loop over the sender's records; `noise_draws i` and
`time_jitters i` are the oracle values of the two random draws made at
hop `i`. -/
def simulate_receiver_go : AlgorithmState → List FrequencyResult → (ℕ → ℚ) → (ℕ → ℚ) → ℕ → List ReceiverHopOutcome
  | _, [], _, _, _ => []
  | st, sd :: rest, noise_draws, time_jitters, i =>
    let step := receiver_hop st sd (noise_draws i) (time_jitters i)
    step.1 :: simulate_receiver_go step.2 rest noise_draws time_jitters (i + 1)

/-- `simulate_receiver_operation(sender_results, noise_level)`: resets
the hop state to `(hop_counter, current_k_index) = (0, 0)` and replays
the sender's records.  The per-hop draw `uniform(-noise_level,
noise_level)` is modelled as `noise_level * unit_noise i` and the time
jitter `uniform(-0.05, 0.05)` as `(1/20) * unit_jitter i`, for oracle
unit draws in [-1, 1]. -/
def simulate_receiver_operation (st : AlgorithmState) (sender_results : List FrequencyResult)
    (noise_level : ℚ) (unit_noise unit_jitter : ℕ → ℚ) : List ReceiverHopOutcome :=
  simulate_receiver_go { st with current_k_index := 0, hop_counter := 0 } sender_results
    (fun i => noise_level * unit_noise i) (fun i => (1 / 20) * unit_jitter i) 0

/-- Python's `min(l)` over a nonempty list, with the `if l else 0`
default of `calculate_statistics` folded in. -/
def listMinD : List ℚ → ℚ
  | [] => 0
  | x :: xs => xs.foldl min x

/-- Python's `max(l)` over a nonempty list, with the `if l else 0`
default of `calculate_statistics` folded in. -/
def listMaxD : List ℚ → ℚ
  | [] => 0
  | x :: xs => xs.foldl max x

/-- Sender half of the `calculate_statistics` dictionary. -/
structure SenderStats where
  total_hops : ℕ
  valid_hops : ℕ
  avg_frequency : ℚ
  min_frequency : ℚ
  max_frequency : ℚ
  frequency_range : ℚ
deriving DecidableEq

/-- Receiver half of the `calculate_statistics` dictionary.  The source
computes `estimated_snr_db = 10 * math.log10(1 / (noise_percentage /
100))`; the real-valued logarithm is kept symbolic through its rational
argument `snr_log10_argument = 1 / (noise_percentage / 100)`. -/
structure ReceiverStats where
  total_receptions : ℕ
  valid_receptions : ℕ
  successful_matches : ℕ
  success_rate : ℚ
  validation_rate : ℚ
  noise_percentage : ℚ
  snr_log10_argument : ℚ
deriving DecidableEq

/-- Sender statistics of `calculate_statistics`: frequencies of the
records whose `is_valid` flag is set; average / min / max / range with
the `if list else 0` guards of the source. -/
def sender_statistics (sender_results : List FrequencyResult) : SenderStats :=
  let sender_frequencies :=
    (sender_results.filter (fun r => r.is_valid)).map (fun r => r.frequency)
  { total_hops := sender_results.length,
    valid_hops := sender_frequencies.length,
    avg_frequency :=
      if sender_frequencies = [] then 0
      else sender_frequencies.sum / (sender_frequencies.length : ℚ),
    min_frequency := listMinD sender_frequencies,
    max_frequency := listMaxD sender_frequencies,
    frequency_range :=
      if sender_frequencies = [] then 0
      else listMaxD sender_frequencies - listMinD sender_frequencies }

/-- Receiver statistics of `calculate_statistics`: counts of valid
receptions and of successful matches among them, the two percentage
rates with the `if receiver_results else 0` guards, and the fixed
illustrative noise figure `noise_percentage = 0.99` (hard-coded in the
source, independent of the simulation's `noise_level`). -/
def receiver_statistics (receiver_results : List ReceiverHopOutcome) : ReceiverStats :=
  let valid_receptions := receiver_results.filter (fun r => r.validation.is_valid)
  let successful_matches := valid_receptions.filter (fun r => r.is_match)
  let noise_percentage : ℚ := 99 / 100
  { total_receptions := receiver_results.length,
    valid_receptions := valid_receptions.length,
    successful_matches := successful_matches.length,
    success_rate :=
      if receiver_results = [] then 0
      else (successful_matches.length : ℚ) / (receiver_results.length : ℚ) * 100,
    validation_rate :=
      if receiver_results = [] then 0
      else (valid_receptions.length : ℚ) / (receiver_results.length : ℚ) * 100,
    noise_percentage := noise_percentage,
    snr_log10_argument := 1 / (noise_percentage / 100) }

/-- `calculate_statistics(sender_results, receiver_results)`. -/
def calculate_statistics (sender_results : List FrequencyResult)
    (receiver_results : List ReceiverHopOutcome) : SenderStats × ReceiverStats :=
  (sender_statistics sender_results, receiver_statistics receiver_results)

/-- An admissible coefficient schedule: what `__init__` derives from the
seeded generator is a sorted list of five integers in [1000, 3000].
Used to instantiate concrete scenarios (the exact Mersenne-Twister
output for a given key is runtime-library behaviour outside the
repository). -/
def demoState : AlgorithmState :=
  { k1_k2_list := [1000, 1500, 2000, 2500, 3000], current_k_index := 0, hop_counter := 0 }

/-- Coefficient index observed by the sender at each hop of
`simulate_sender_operation`: the value of `self.current_k_index` at the
start of each loop iteration (the index `calculate_frequency` reads
first on that hop). -/
def sender_k_trace : AlgorithmState → (ℕ → ℚ) → ℕ → ℕ → List ℕ
  | _, _, 0, _ => []
  | st, amp_draws, hops + 1, i =>
    let p := generate_signal_parameters (amp_draws i)
    let fr := calculate_frequency st p.1 p.2.1 p.2.2
    st.current_k_index :: sender_k_trace (next_hop fr.2) amp_draws hops (i + 1)

/-- Coefficient index observed by the receiver at each hop of
`simulate_receiver_operation`'s loop (after the explicit reset): the
value of `self.current_k_index` at the start of each loop iteration. -/
def receiver_k_trace : AlgorithmState → List FrequencyResult → (ℕ → ℚ) → (ℕ → ℚ) → ℕ → List ℕ
  | _, [], _, _, _ => []
  | st, sd :: rest, noise_draws, time_jitters, i =>
    st.current_k_index ::
      receiver_k_trace (receiver_hop st sd (noise_draws i) (time_jitters i)).2
        rest noise_draws time_jitters (i + 1)

/-! ### Basic facts about the frequency calculator -/

/-- The band correction always lands inside the band `[band_min, band_max]`. -/
lemma clampBand_mem (f : ℚ) : band_min ≤ clampBand f ∧ clampBand f ≤ band_max := by
  unfold clampBand band_min band_max
  split_ifs with h1 h2
  · exact ⟨le_refl _, by norm_num⟩
  · exact ⟨by norm_num, le_refl _⟩
  · push_neg at h1 h2
    exact ⟨h1, h2⟩

/-- With fuel remaining, one iteration of the retry loop always returns:
the band check at line 114 examines the already-clamped frequency, so it
always succeeds and the result of the first attempt is accepted with the
state untouched. -/
lemma calcFreqGo_succ_eq (a t e : ℚ) (oi ma fuel att : ℕ) (st : AlgorithmState) :
    calcFreqGo a t e oi ma (fuel + 1) att st =
      ({ frequency := clampBand (f0 + (a * (get_k1_k2_values st).1 + e * (get_k1_k2_values st).2) / t),
         amplitude := a, time_ms := t, energy := e,
         k1 := (get_k1_k2_values st).1, k2 := (get_k1_k2_values st).2,
         k1_k2_product := (get_k1_k2_values st).1 * (get_k1_k2_values st).2,
         k_index := st.current_k_index, is_valid := true, attempts := att + 1 }, st) := by
  simp only [calcFreqGo]
  rw [if_pos (clampBand_mem _)]

/-- `calculate_frequency` on a nonempty schedule: closed form of the
accepted first attempt. -/
lemma calculate_frequency_eq_cons (st : AlgorithmState) (h : st.k1_k2_list ≠ [])
    (a t e : ℚ) :
    calculate_frequency st a t e =
      ({ frequency := clampBand (f0 +
            (a * (get_k1_k2_values st).1 + e * (get_k1_k2_values st).2) /
              (if t ≤ 0 then t_hop else t)),
         amplitude := a, time_ms := if t ≤ 0 then t_hop else t, energy := e,
         k1 := (get_k1_k2_values st).1, k2 := (get_k1_k2_values st).2,
         k1_k2_product := (get_k1_k2_values st).1 * (get_k1_k2_values st).2,
         k_index := st.current_k_index, is_valid := true, attempts := 1 }, st) := by
  obtain ⟨n, hn⟩ : ∃ n, st.k1_k2_list.length = n + 1 := by
    cases hl : st.k1_k2_list with
    | nil => exact absurd hl h
    | cons x xs => exact ⟨xs.length, by simp [hl]⟩
  simp only [calculate_frequency, hn]
  exact calcFreqGo_succ_eq _ _ _ _ _ _ _ _

/-- `calculate_frequency` on the empty schedule degenerates to the
fallback immediately (the loop body never runs). -/
lemma calculate_frequency_eq_nil (st : AlgorithmState) (h : st.k1_k2_list = [])
    (a t e : ℚ) :
    calculate_frequency st a t e =
      ({ frequency := f0, amplitude := a, time_ms := if t ≤ 0 then t_hop else t,
         energy := e, k1 := 10, k2 := 100, k1_k2_product := 1000,
         k_index := st.current_k_index, is_valid := false, attempts := 0 }, st) := by
  have hlen : st.k1_k2_list.length = 0 := by simp [h]
  simp only [calculate_frequency, hlen, calcFreqGo]

/-- `calculate_frequency` never changes the algorithm state: with a
nonempty schedule the first attempt is accepted before any index
advance, and with an empty schedule the fallback restores the original
index. -/
lemma calculate_frequency_state (st : AlgorithmState) (a t e : ℚ) :
    (calculate_frequency st a t e).2 = st := by
  rcases eq_or_ne st.k1_k2_list [] with h | h
  · rw [calculate_frequency_eq_nil st h]
  · rw [calculate_frequency_eq_cons st h]

/-- The input fields are copied into the result dictionary (the time
after the zero-time guard). -/
lemma calculate_frequency_fields (st : AlgorithmState) (a t e : ℚ) :
    (calculate_frequency st a t e).1.amplitude = a ∧
    (calculate_frequency st a t e).1.time_ms = (if t ≤ 0 then t_hop else t) ∧
    (calculate_frequency st a t e).1.energy = e := by
  rcases eq_or_ne st.k1_k2_list [] with h | h
  · rw [calculate_frequency_eq_nil st h]
    exact ⟨rfl, rfl, rfl⟩
  · rw [calculate_frequency_eq_cons st h]
    exact ⟨rfl, rfl, rfl⟩

/-- The receiver's per-hop state transition is `next_hop`, whether or
not the hop validates (`calculate_frequency` leaves the state alone). -/
lemma receiver_hop_state (st : AlgorithmState) (sd : FrequencyResult) (nd jd : ℚ) :
    (receiver_hop st sd nd jd).2 = next_hop st := by
  simp only [receiver_hop]
  split
  · rw [calculate_frequency_state]
  · rfl

/-! ### Claim theorems -/

/-- Claim C1: evaluation of the code at a failing input for the claim
"calculate_frequency advances to the next coefficient pair only when
the unclamped frequency falls outside [2000, 4000], and accepts the
first coefficient pair whose raw (unclamped) value already lies
in-band."  At amplitude 1000, time 2, energy 0 the raw frequency of the
first coefficient pair is 7000, far outside the band, yet the call
accepts that very pair on attempt 1 (clamped to 4000, `is_valid` true)
and never advances the index: the in-band test at line 114 is applied
after the clamp at lines 109-112, so the advance at line 132 is
unreachable, contradicting the retry described by the claim and by the
source's own comment at line 131. -/
theorem C1_retry_on_unclamped_eval :
    f0 + ((1000 : ℚ) * ((get_k1_k2_values demoState).1 : ℚ) +
        0 * ((get_k1_k2_values demoState).2 : ℚ)) / 2 > band_max ∧
    (calculate_frequency demoState 1000 2 0).1.attempts = 1 ∧
    (calculate_frequency demoState 1000 2 0).1.is_valid = true ∧
    (calculate_frequency demoState 1000 2 0).1.k1 = (get_k1_k2_values demoState).1 ∧
    (calculate_frequency demoState 1000 2 0).2.current_k_index = demoState.current_k_index := by
  have hk : get_k1_k2_values demoState = (10, 100) := by decide
  rw [calculate_frequency_eq_cons demoState (by decide), hk]
  refine ⟨?_, rfl, rfl, rfl, rfl⟩
  norm_num [f0, band_max]

/-- Claim C2: for every input and every algorithm state (with the program's
nonempty coefficient schedule), `calculate_frequency` returns on the
first loop iteration with `attempts = 1` and `is_valid = true` and
leaves the whole algorithm state — in particular `current_k_index` —
unchanged; the exhaustion fallback (which would carry
`is_valid = false`) is unreachable, because the in-band test is applied
to the value after clamping to `[band_min, band_max]`. -/
theorem C2_always_first_attempt (st : AlgorithmState) (amplitude time_ms energy : ℚ)
    (h : st.k1_k2_list ≠ []) :
    (calculate_frequency st amplitude time_ms energy).1.attempts = 1 ∧
    (calculate_frequency st amplitude time_ms energy).1.is_valid = true ∧
    (calculate_frequency st amplitude time_ms energy).2 = st := by
  rw [calculate_frequency_eq_cons st h]
  exact ⟨rfl, rfl, rfl⟩

/-- Witness for C2 at a concrete schedule and input. -/
theorem C2_always_first_attempt_witness :
    demoState.k1_k2_list ≠ [] ∧
    ((calculate_frequency demoState 3 2 18).1.attempts = 1 ∧
     (calculate_frequency demoState 3 2 18).1.is_valid = true ∧
     (calculate_frequency demoState 3 2 18).2 = demoState) :=
  ⟨by decide, C2_always_first_attempt demoState 3 2 18 (by decide)⟩

/-- The validity flag at the concrete demonstration input, shared by the
concrete instantiations below (proved from the closed form of the
accepted first attempt). -/
lemma demo_is_valid : (calculate_frequency demoState 3 2 18).1.is_valid = true := by
  rw [calculate_frequency_eq_cons demoState (by decide)]

/-- Claim C3: every `FrequencyResult` whose validity flag is true carries a
frequency in the band, `2000 ≤ frequency ≤ 4000`. -/
theorem C3_valid_implies_band (st : AlgorithmState) (amplitude time_ms energy : ℚ)
    (h : (calculate_frequency st amplitude time_ms energy).1.is_valid = true) :
    (2000 : ℚ) ≤ (calculate_frequency st amplitude time_ms energy).1.frequency ∧
    (calculate_frequency st amplitude time_ms energy).1.frequency ≤ 4000 := by
  rcases eq_or_ne st.k1_k2_list [] with hl | hl
  · rw [calculate_frequency_eq_nil st hl] at h
    exact Bool.noConfusion h
  · rw [calculate_frequency_eq_cons st hl]
    have := clampBand_mem (f0 +
      (amplitude * ((get_k1_k2_values st).1 : ℚ) + energy * ((get_k1_k2_values st).2 : ℚ)) /
        (if time_ms ≤ 0 then t_hop else time_ms))
    simpa [band_min, band_max] using this

/-- Witness for C3 at a concrete schedule and input. -/
theorem C3_valid_implies_band_witness :
    (calculate_frequency demoState 3 2 18).1.is_valid = true ∧
    ((2000 : ℚ) ≤ (calculate_frequency demoState 3 2 18).1.frequency ∧
     (calculate_frequency demoState 3 2 18).1.frequency ≤ 4000) :=
  ⟨demo_is_valid, C3_valid_implies_band demoState 3 2 18 demo_is_valid⟩

/-- Claim C4: evaluation of the code at a failing input for the claim "if
every candidate pair yields an out-of-band raw frequency, the call
returns the fallback result (frequency 2000, k1 = 10, k2 = 100,
validity false)".  At amplitude 1000, time 2, energy 0 every one of the
five candidate pairs yields a raw frequency above 4000, yet the call
returns the first pair's clamped frequency 4000 with `is_valid = true`
and `attempts = 1` instead of the fallback: the exhaustion branch at
lines 135-150 is unreachable because the in-band test follows the
clamp.  (The claim's retry cap itself holds trivially: exactly one
attempt is ever made.) -/
theorem C4_fallback_unreachable_eval :
    (∀ p ∈ demoState.k1_k2_list,
      f0 + ((1000 : ℚ) * ((p / k2_constant : ℕ) : ℚ) + 0 * (k2_constant : ℚ)) / 2 > band_max) ∧
    (calculate_frequency demoState 1000 2 0).1.is_valid = true ∧
    (calculate_frequency demoState 1000 2 0).1.frequency = 4000 ∧
    (calculate_frequency demoState 1000 2 0).1.attempts = 1 := by
  have hk : get_k1_k2_values demoState = (10, 100) := by decide
  rw [calculate_frequency_eq_cons demoState (by decide), hk]
  refine ⟨?_, rfl, ?_, rfl⟩
  · intro p hp
    fin_cases hp <;> norm_num [f0, band_max, k2_constant]
  · show clampBand (f0 + ((1000 : ℚ) * ((10 : ℕ) : ℚ) + 0 * ((100 : ℕ) : ℚ)) /
      (if (2 : ℚ) ≤ 0 then t_hop else 2)) = 4000
    norm_num [clampBand, f0, band_min, band_max]

/-- Claim C5: a call with `time_ms ≤ 0` substitutes the fixed hop duration
`t_hop = 2` ms before the formula is evaluated — the call coincides
with the call at `t_hop`, the result records `time_ms = t_hop`, and the
divisor actually used is the positive constant, so no division by zero
occurs. -/
theorem C5_zero_time_guard (st : AlgorithmState) (amplitude time_ms energy : ℚ)
    (h : time_ms ≤ 0) :
    calculate_frequency st amplitude time_ms energy =
      calculate_frequency st amplitude t_hop energy ∧
    (calculate_frequency st amplitude time_ms energy).1.time_ms = t_hop ∧
    (0 : ℚ) < t_hop := by
  have hguard : calculate_frequency st amplitude time_ms energy =
      calculate_frequency st amplitude t_hop energy := by
    simp only [calculate_frequency, if_pos h]
    rw [if_neg (by norm_num [t_hop])]
  refine ⟨hguard, ?_, by norm_num [t_hop]⟩
  rw [hguard, (calculate_frequency_fields st amplitude t_hop energy).2.1,
    if_neg (by norm_num [t_hop])]

/-- Witness for C5 at `time_ms = 0`. -/
theorem C5_zero_time_guard_witness :
    (0 : ℚ) ≤ 0 ∧
    (calculate_frequency demoState 3 0 18 = calculate_frequency demoState 3 t_hop 18 ∧
     (calculate_frequency demoState 3 0 18).1.time_ms = t_hop ∧
     (0 : ℚ) < t_hop) :=
  ⟨le_refl 0, C5_zero_time_guard demoState 3 0 18 (le_refl 0)⟩

/-- Claim C6: `validate_signal` marks the amplitude valid exactly on the
inclusive window `3.0 - 0.3 ≤ amplitude ≤ 3.0 + 0.3` and the time valid
exactly on `2 - 0.1 ≤ time_ms ≤ 2 + 0.1` (so values at the nominal
± tolerance bounds are valid and values beyond by any epsilon are not),
and the combined flag is the conjunction of the two.  The function is
pure — it takes no algorithm state and returns none, so it has no side
effect on it. -/
theorem C6_validate_signal_windows (amplitude time_ms : ℚ) :
    ((validate_signal amplitude time_ms).is_valid_amplitude = true ↔
      (3 - 3 / 10 ≤ amplitude ∧ amplitude ≤ 3 + 3 / 10)) ∧
    ((validate_signal amplitude time_ms).is_valid_time = true ↔
      (2 - 1 / 10 ≤ time_ms ∧ time_ms ≤ 2 + 1 / 10)) ∧
    (validate_signal amplitude time_ms).is_valid =
      ((validate_signal amplitude time_ms).is_valid_amplitude &&
        (validate_signal amplitude time_ms).is_valid_time) := by
  refine ⟨?_, ?_, rfl⟩ <;>
    simp [validate_signal, nominal_amplitude, amplitude_tolerance, t_hop, time_tolerance]

/-! ### Hop-state alignment -/

/-- `next_hop` keeps the coefficient schedule. -/
lemma next_hop_list (st : AlgorithmState) : (next_hop st).k1_k2_list = st.k1_k2_list := rfl

/-- `next_hop` advances the index modulo the schedule length. -/
lemma next_hop_index (st : AlgorithmState) :
    (next_hop st).current_k_index = (st.current_k_index + 1) % st.k1_k2_list.length := rfl

/-- The sender run keeps the coefficient schedule. -/
lemma simulate_sender_go_list (amp_draws : ℕ → ℚ) :
    ∀ (hops : ℕ) (st : AlgorithmState) (i : ℕ),
    (simulate_sender_go st amp_draws hops i).2.k1_k2_list = st.k1_k2_list := by
  intro hops
  induction hops with
  | zero => intro st i; rfl
  | succ n ih =>
    intro st i
    simp only [simulate_sender_go]
    rw [ih, next_hop_list, calculate_frequency_state]

/-- The sender run produces one record per hop. -/
lemma simulate_sender_go_length (amp_draws : ℕ → ℚ) :
    ∀ (hops : ℕ) (st : AlgorithmState) (i : ℕ),
    (simulate_sender_go st amp_draws hops i).1.length = hops := by
  intro hops
  induction hops with
  | zero => intro st i; rfl
  | succ n ih =>
    intro st i
    simp only [simulate_sender_go, List.length_cons, ih]

/-- Replaying one sender record per hop, the receiver's observed
coefficient-index sequence coincides with the sender's whenever both
start from the same index over schedules of the same length — the
receiver's validation outcomes do not matter, since both branches of a
receiver hop advance the state by exactly one `next_hop` and
`calculate_frequency` never moves the index. -/
lemma k_trace_align (sender_results : List FrequencyResult) :
    ∀ (st_s st_r : AlgorithmState) (amp_draws noise_draws time_jitters : ℕ → ℚ) (i j : ℕ),
    st_r.current_k_index = st_s.current_k_index →
    st_r.k1_k2_list.length = st_s.k1_k2_list.length →
    receiver_k_trace st_r sender_results noise_draws time_jitters j =
      sender_k_trace st_s amp_draws sender_results.length i := by
  induction sender_results with
  | nil => intros; rfl
  | cons sd rest ih =>
    intro st_s st_r amp_draws noise_draws time_jitters i j h1 h2
    simp only [receiver_k_trace, sender_k_trace, List.length_cons]
    rw [h1, receiver_hop_state, calculate_frequency_state]
    refine congrArg (List.cons st_s.current_k_index) ?_
    refine ih (next_hop st_s) (next_hop st_r) amp_draws noise_draws time_jitters _ _ ?_ ?_
    · rw [next_hop_index, next_hop_index, h1, h2]
    · rw [next_hop_list, next_hop_list, h2]

/-- Claim C7: for every hop count and every sequence of sender hops (any
amplitude draws), after resetting the receiver's hop state to
`(hop_counter, current_k_index) = (0, 0)` and replaying the sender's
records under any noise and jitter draws, the coefficient index the
receiver observes at hop `i` equals the one the sender observed at hop
`i`, whether or not individual receiver hops pass validation. -/
theorem C7_hop_state_alignment (L : List ℕ) (hop_count : ℕ)
    (amp_draws noise_draws time_jitters : ℕ → ℚ) :
    receiver_k_trace
      { (simulate_sender_operation ⟨L, 0, 0⟩ hop_count amp_draws).2 with
          current_k_index := 0, hop_counter := 0 }
      (simulate_sender_operation ⟨L, 0, 0⟩ hop_count amp_draws).1
      noise_draws time_jitters 0 =
    sender_k_trace ⟨L, 0, 0⟩ amp_draws hop_count 0 := by
  have hlen : (simulate_sender_operation ⟨L, 0, 0⟩ hop_count amp_draws).1.length = hop_count :=
    simulate_sender_go_length amp_draws hop_count ⟨L, 0, 0⟩ 0
  have halign := k_trace_align (simulate_sender_operation ⟨L, 0, 0⟩ hop_count amp_draws).1
    ⟨L, 0, 0⟩
    { (simulate_sender_operation ⟨L, 0, 0⟩ hop_count amp_draws).2 with
        current_k_index := 0, hop_counter := 0 }
    amp_draws noise_draws time_jitters 0 0 rfl
    (by rw [show (simulate_sender_operation ⟨L, 0, 0⟩ hop_count amp_draws).2.k1_k2_list = L from
      simulate_sender_go_list amp_draws hop_count ⟨L, 0, 0⟩ 0])
  rw [hlen] at halign
  exact halign

/-! ### Lock-step scenario -/

/-- The receiver hop record in the branch where validation passes. -/
lemma receiver_hop_valid (st : AlgorithmState) (sd : FrequencyResult) (nd jd : ℚ)
    (h : (validate_signal (sd.amplitude * (1 + nd)) (sd.time_ms + jd)).is_valid = true) :
    (receiver_hop st sd nd jd).1 =
      { received_amplitude := sd.amplitude * (1 + nd),
        received_energy := sd.energy * (1 + nd),
        received_time := sd.time_ms + jd,
        validation := validate_signal (sd.amplitude * (1 + nd)) (sd.time_ms + jd),
        freq_result := some (calculate_frequency st (sd.amplitude * (1 + nd))
          (sd.time_ms + jd) (sd.energy * (1 + nd))).1,
        frequency_difference :=
          ((|(calculate_frequency st (sd.amplitude * (1 + nd)) (sd.time_ms + jd)
              (sd.energy * (1 + nd))).1.frequency - sd.frequency| : ℚ) : WithTop ℚ),
        is_match := decide (|(calculate_frequency st (sd.amplitude * (1 + nd))
          (sd.time_ms + jd) (sd.energy * (1 + nd))).1.frequency - sd.frequency| < 40) } := by
  simp only [receiver_hop]
  rw [if_pos h]

/-- Closed form of the sender's hop-0 record in the lock-step scenario
over the demonstration schedule: coefficient pair (10, 100), frequency
2000 + (3·10 + 18·100)/2 = 2915 MHz. -/
lemma demo_sender_record :
    (calculate_frequency demoState 3 2 18).1 =
      { frequency := 2915, amplitude := 3, time_ms := 2, energy := 18,
        k1 := 10, k2 := 100, k1_k2_product := 1000, k_index := 0,
        is_valid := true, attempts := 1 } := by
  have hk : get_k1_k2_values demoState = (10, 100) := by decide
  rw [calculate_frequency_eq_cons demoState (by decide), hk]
  simp only [FrequencyResult.mk.injEq]
  norm_num [clampBand, f0, band_min, band_max, demoState]

/-- Claim C8 counterexample: in the lock-step scenario (sender hop 0 with
amplitude 3 V, time 2 ms, energy 18, coefficient index 0; receiver with
`noise_level = 0` over the same record, demonstration schedule), a time
jitter draw of +0.05 ms — which `simulate_receiver_operation` applies
independently of `noise_level` — makes the recomputed frequency
2000 + 1830/2.05 = 118600/41 ≠ 2915, so `frequency_difference` is
915/41 ≈ 22.3 MHz, not 0 (though still below the 40 MHz tolerance, so
`is_match` remains true). -/
theorem C8_lockstep_counterexample :
    ((simulate_receiver_operation demoState [(calculate_frequency demoState 3 2 18).1]
        0 (fun _ => 0) (fun _ => 1)).map
      (fun o => (o.frequency_difference, o.is_match)))
      = [(((915 / 41 : ℚ) : WithTop ℚ), true)] ∧
    ((915 / 41 : ℚ) : WithTop ℚ) ≠ (0 : WithTop ℚ) := by
  constructor
  · rw [demo_sender_record]
    simp only [simulate_receiver_operation, simulate_receiver_go, List.map]
    rw [receiver_hop_valid _ _ _ _ (by
      norm_num [validate_signal, nominal_amplitude, amplitude_tolerance, t_hop,
        time_tolerance])]
    have hstate : ({ demoState with current_k_index := 0, hop_counter := 0 }
        : AlgorithmState) = demoState := rfl
    have hres : calculate_frequency
        { demoState with current_k_index := 0, hop_counter := 0 }
        ((3 : ℚ) * (1 + 0 * 0)) ((2 : ℚ) + 1 / 20 * 1) ((18 : ℚ) * (1 + 0 * 0)) =
        calculate_frequency demoState 3 (41 / 20) 18 := by
      rw [hstate]
      norm_num
    rw [hres]
    have hk : get_k1_k2_values demoState = (10, 100) := by decide
    rw [calculate_frequency_eq_cons demoState (by decide), hk]
    norm_num [clampBand, f0, band_min, band_max]
    rw [abs_of_nonneg (show (0 : ℚ) ≤ 915 / 41 by norm_num)]
    norm_num
  · simp only [ne_eq, WithTop.coe_eq_zero]
    norm_num

/-- Claim C8 amended: in the lock-step scenario (sender hop 0 with amplitude
3 V, time 2 ms, energy 18, coefficient index 0; receiver with
`noise_level = 0` over the same record) the amplitude and energy pass
through unchanged, and when additionally the hop-0 time-jitter draw is
zero — the jitter is drawn from ±0.05 ms independently of
`noise_level`, so this is an extra assumption — the receiver's
recomputed frequency equals the sender's exactly,
`frequency_difference = 0` and `is_match = true`, for every coefficient
schedule. -/
theorem C8_amended_zero_jitter (L : List ℕ) (unit_noise unit_jitter : ℕ → ℚ)
    (hv : unit_jitter 0 = 0) :
    ((simulate_receiver_operation ⟨L, 0, 0⟩ [(calculate_frequency ⟨L, 0, 0⟩ 3 2 18).1]
        0 unit_noise unit_jitter).map
      (fun o => (o.frequency_difference, o.is_match,
        o.freq_result.map FrequencyResult.frequency)))
      = [((0 : WithTop ℚ), true,
          some (calculate_frequency ⟨L, 0, 0⟩ 3 2 18).1.frequency)] := by
  obtain ⟨hamp, htime, hen⟩ := calculate_frequency_fields ⟨L, 0, 0⟩ 3 2 18
  have htime2 : (calculate_frequency ⟨L, 0, 0⟩ 3 2 18).1.time_ms = 2 := by
    rw [htime]; norm_num
  simp only [simulate_receiver_operation, simulate_receiver_go, List.map]
  rw [hv]
  have hval : (validate_signal
      ((calculate_frequency ⟨L, 0, 0⟩ 3 2 18).1.amplitude * (1 + 0 * unit_noise 0))
      ((calculate_frequency ⟨L, 0, 0⟩ 3 2 18).1.time_ms + 1 / 20 * 0)).is_valid = true := by
    rw [hamp, htime2]
    norm_num [validate_signal, nominal_amplitude, amplitude_tolerance, t_hop, time_tolerance]
  rw [receiver_hop_valid _ _ _ _ hval]
  have harg1 : (calculate_frequency ⟨L, 0, 0⟩ 3 2 18).1.amplitude * (1 + 0 * unit_noise 0)
      = 3 := by rw [hamp]; ring
  have harg2 : (calculate_frequency ⟨L, 0, 0⟩ 3 2 18).1.time_ms + 1 / 20 * 0 = 2 := by
    rw [htime2]; ring
  have harg3 : (calculate_frequency ⟨L, 0, 0⟩ 3 2 18).1.energy * (1 + 0 * unit_noise 0)
      = 18 := by rw [hen]; ring
  rw [harg1, harg2, harg3]
  simp [sub_self, abs_zero]

/-- Witness for the amended C8 at the demonstration schedule with all
unit draws zero. -/
theorem C8_amended_zero_jitter_witness :
    (fun _ : ℕ => (0 : ℚ)) 0 = 0 ∧
    ((simulate_receiver_operation ⟨[1000, 1500, 2000, 2500, 3000], 0, 0⟩
        [(calculate_frequency ⟨[1000, 1500, 2000, 2500, 3000], 0, 0⟩ 3 2 18).1]
        0 (fun _ => 0) (fun _ => 0)).map
      (fun o => (o.frequency_difference, o.is_match,
        o.freq_result.map FrequencyResult.frequency)))
      = [((0 : WithTop ℚ), true,
          some (calculate_frequency ⟨[1000, 1500, 2000, 2500, 3000], 0, 0⟩ 3 2 18).1.frequency)] :=
  ⟨rfl, C8_amended_zero_jitter [1000, 1500, 2000, 2500, 3000] (fun _ => 0) (fun _ => 0) rfl⟩

/-- Concrete receiver hop record used to instantiate the statistics
claims. -/
def demoOutcome : ReceiverHopOutcome :=
  (receiver_hop demoState (calculate_frequency demoState 3 2 18).1 0 0).1

/-- Claim C9: `calculate_statistics` is total on degenerate inputs — a sender
sequence with no valid hops yields average, minimum, maximum and range
of frequency all equal to 0 (the guards avoid any division by zero),
and for R total receiver hops and M successful matches the success rate
is exactly M / R × 100 when R > 0 and 0 when R = 0. -/
theorem C9_statistics_boundaries (sender_results : List FrequencyResult)
    (receiver_results : List ReceiverHopOutcome)
    (hs : ∀ r ∈ sender_results, r.is_valid = false) :
    (sender_statistics sender_results).avg_frequency = 0 ∧
    (sender_statistics sender_results).min_frequency = 0 ∧
    (sender_statistics sender_results).max_frequency = 0 ∧
    (sender_statistics sender_results).frequency_range = 0 ∧
    (receiver_results ≠ [] →
      (receiver_statistics receiver_results).success_rate =
        ((receiver_statistics receiver_results).successful_matches : ℚ) /
          (receiver_results.length : ℚ) * 100) ∧
    (receiver_statistics ([] : List ReceiverHopOutcome)).success_rate = 0 := by
  have hnil : sender_results.filter (fun r => r.is_valid) = [] := by
    rw [List.filter_eq_nil_iff]
    intro r hr
    simp [hs r hr]
  refine ⟨?_, ?_, ?_, ?_, ?_, rfl⟩
  · simp [sender_statistics, hnil]
  · simp [sender_statistics, hnil, listMinD]
  · simp [sender_statistics, hnil, listMaxD]
  · simp [sender_statistics, hnil]
  · intro h
    simp only [receiver_statistics, if_neg h]

/-- Witness for C9 with an empty sender log and one receiver hop. -/
theorem C9_statistics_boundaries_witness :
    (∀ r ∈ ([] : List FrequencyResult), r.is_valid = false) ∧
    ((sender_statistics []).avg_frequency = 0 ∧
     (sender_statistics []).min_frequency = 0 ∧
     (sender_statistics []).max_frequency = 0 ∧
     (sender_statistics []).frequency_range = 0 ∧
     (([demoOutcome] : List ReceiverHopOutcome) ≠ [] →
       (receiver_statistics [demoOutcome]).success_rate =
         ((receiver_statistics [demoOutcome]).successful_matches : ℚ) /
           (([demoOutcome] : List ReceiverHopOutcome).length : ℚ) * 100) ∧
     (receiver_statistics ([] : List ReceiverHopOutcome)).success_rate = 0) :=
  ⟨by simp, C9_statistics_boundaries [] [demoOutcome] (by simp)⟩

/-- Claim C10: whatever `noise_level` is passed to the receiver simulation
(and whatever the draws and inputs are), the receiver statistics report
the hard-coded `noise_percentage = 0.99` and an SNR argument derived
from that fixed figure — `1 / (0.99 / 100) = 10000/99`, of which the
source reports `10 × log10` — independent of the injected noise. -/
theorem C10_fixed_noise_percentage (noise_level : ℚ) (unit_noise unit_jitter : ℕ → ℚ)
    (st : AlgorithmState) (sender_results : List FrequencyResult) :
    (receiver_statistics (simulate_receiver_operation st sender_results noise_level
        unit_noise unit_jitter)).noise_percentage = 99 / 100 ∧
    (receiver_statistics (simulate_receiver_operation st sender_results noise_level
        unit_noise unit_jitter)).snr_log10_argument = 1 / ((99 : ℚ) / 100 / 100) ∧
    (1 : ℚ) / ((99 : ℚ) / 100 / 100) = 10000 / 99 := by
  exact ⟨rfl, rfl, by norm_num⟩

end SecureFHSS
